import Mathlib

/-!
Shallow embedding of `new_nu_check/new_main.go` (NuBanner course-watch
service) and proofs of the specified properties.

The Go program keeps a global registry `subscriptions : map[string]chan bool`
guarded by `subscriptionsMux`.  `startCourseCheckHandler` registers an email
key and spawns a `checkCourseAvailability` goroutine bound to a fresh
unbuffered stop channel; `stopCourseCheckHandler` looks the key up, sends on
the channel, closes it, and deletes the entry — all inside the lock.  The
watcher loops on a 60-second ticker: each tick does an HTTP POST, parses the
available-seat count with `parseAvailableSeats`, and calls
`sendEmailNotification` when the count is positive; any error on the tick
path makes the goroutine return (without touching the registry).

The embedding below models:
  * the registry state and the two handlers as pure state transformers
    (the critical sections are serialized by the mutex, so each handler run
    is one atomic step);
  * the watcher goroutine as a fold over the sequence of its select-loop
    outcomes (each iteration of the Go `select` either receives a ticker
    tick — with the result the external checker would produce — or receives
    the stop signal);
  * `parseAvailableSeats` faithfully, including the concrete regex
    `Enrollment Seats Available:</span> <span dir="ltr"> (-?\d+) </span>`
    and `strconv.Atoi`'s 64-bit range error;
  * the exact sequences of operations each handler performs while holding
    `subscriptionsMux`, for the lock-discipline claims.
-/

/-! ## Registry model (`subscriptions`, `startCourseCheckHandler`, `stopCourseCheckHandler`) -/

/-- Outcome of `startCourseCheckHandler`, as seen through its HTTP response:
`badRequest` for a missing email/CRN, `alreadyActive` for "A check is already
running for this email", `started` for "Course availability check started". -/
inductive StartResult
  | started
  | alreadyActive
  | badRequest
deriving DecidableEq

/-- Outcome of `stopCourseCheckHandler`: `badRequest` for a missing email,
`notFound` for "No active check found for this email", `stopped` for
"Course check stopped". -/
inductive StopResult
  | stopped
  | notFound
  | badRequest
deriving DecidableEq

/-- Global mutable state of the program.  `subs` is the
`subscriptions` map (email to stop-channel id; channel ids stand for the
identity of the `chan bool` values, numbered in creation order by
`nextChan`).  `watchers` is the set of live `checkCourseAvailability`
goroutines, as (email, crn, stop-channel id) triples.  `signals` records every
completed send on a stop channel (one entry per send), newest first. -/
structure RegState where
  subs : List (String × Nat)
  nextChan : Nat
  watchers : List (String × String × Nat)
  signals : List Nat
deriving DecidableEq

/-- The state at program start: empty map, no goroutines. -/
def initState : RegState := ⟨[], 0, [], []⟩

/-- Go map lookup `subscriptions[email]`, modelled on the association list. -/
def lookupSub (subs : List (String × Nat)) (email : String) : Option Nat :=
  match subs with
  | [] => none
  | (k, v) :: rest => if k = email then some v else lookupSub rest email

/-- Handler `startCourseCheckHandler` (new_main.go:35-56): reject empty email/CRN;
under the lock, if the key exists answer `alreadyActive` with no state
change, otherwise make a fresh channel, insert the entry, and spawn the
watcher goroutine. -/
def startCourseCheckHandler (email crn : String) (s : RegState) :
    StartResult × RegState :=
  if email = "" ∨ crn = "" then (.badRequest, s)
  else
    match lookupSub s.subs email with
    | some _ => (.alreadyActive, s)
    | none =>
      (.started,
        { subs := (email, s.nextChan) :: s.subs
          nextChan := s.nextChan + 1
          watchers := (email, crn, s.nextChan) :: s.watchers
          signals := s.signals })

/-- Handler `stopCourseCheckHandler` (new_main.go:58-77): reject an empty email;
under the lock, if the key is present send on its stop channel (the send is
a rendezvous with the watcher's `select`, so on completion that watcher has
received the signal and returns), close the channel, delete the entry, and
answer `stopped`; otherwise answer `notFound` with no state change. -/
def stopCourseCheckHandler (email : String) (s : RegState) :
    StopResult × RegState :=
  if email = "" then (.badRequest, s)
  else
    match lookupSub s.subs email with
    | some ch =>
      (.stopped,
        { subs := s.subs.filter (fun p => decide (p.1 ≠ email))
          nextChan := s.nextChan
          watchers := s.watchers.filter (fun w => decide (w.2.2 ≠ ch))
          signals := ch :: s.signals })
    | none => (.notFound, s)

/-- A watcher goroutine hits an error on its tick path (request creation,
HTTP round trip, body read, or seat parsing fails) and executes `return`
(new_main.go:91-116): the goroutine ends, and — as the code is written —
nothing is removed from `subscriptions`. -/
def watcherSelfTerminate (ch : Nat) (s : RegState) : RegState :=
  { s with watchers := s.watchers.filter (fun w => decide (w.2.2 ≠ ch)) }

/-- The events that mutate the global registry state. -/
inductive Op
  | start (email crn : String)
  | stop (email : String)
  | watcherFail (ch : Nat)

/-- Apply one event to the state. -/
def applyOp (s : RegState) : Op → RegState
  | .start email crn => (startCourseCheckHandler email crn s).2
  | .stop email => (stopCourseCheckHandler email s).2
  | .watcherFail ch => watcherSelfTerminate ch s

/-- Run a sequence of events from a state. -/
def applyOps (s : RegState) (ops : List Op) : RegState :=
  ops.foldl applyOp s

/-- Number of live watcher goroutines for a given email key. -/
def watcherCount (s : RegState) (email : String) : Nat :=
  (s.watchers.filter (fun w => decide (w.1 = email))).length

/-! ## Watcher loop model (`checkCourseAvailability`, `sendEmailNotification`) -/

/-- What one invocation of the external availability check produces:
`fail msg` for any error on the tick path (logged with `msg`), `ok n` for a
successfully parsed seat count `n`. -/
inductive CheckResult
  | fail (msg : String)
  | ok (count : Int)

/-- One iteration of the watcher's `select` loop: either the 60-second
ticker fires (`tick`, carrying what the check produces and whether the SMTP
send — if one happens — succeeds), or the stop channel delivers the
cancellation signal (`stopSignal`). -/
inductive WEvent
  | tick (check : CheckResult) (smtpOk : Bool)
  | stopSignal

/-- Watcher lifecycle state: `running` while the loop would keep going,
`terminated` once the goroutine has returned. -/
inductive WStatus
  | running
  | terminated
deriving DecidableEq

/-- Function `sendEmailNotification` (new_main.go:138-155): builds and sends the
mail; the result is only logged — the function returns nothing, so an SMTP
error never reaches the caller. -/
def sendEmailNotification (email : String) (availableSeats : Int)
    (crn : String) (smtpOk : Bool) : List String :=
  if smtpOk then ["Send Notification to " ++ email ++ " Successfully"]
  else ["Error sending email"]

/-- Observable outcome of a watcher run: how many availability checks it
performed, the `Send(key, count, target)` notification calls it dispatched
(in order), the log lines, and whether the goroutine has returned. -/
structure WatchOutcome where
  checkerCalls : Nat
  sends : List (String × Int × String)
  logs : List String
  status : WStatus
deriving DecidableEq

/-- Watcher loop `checkCourseAvailability` (new_main.go:79-126) as a fold over the
sequence of select-loop outcomes.  Receiving the stop signal returns at
once (no check that iteration).  A tick performs one availability check;
an error on the tick path logs and returns; a count `n > 0` dispatches
exactly one notification (whose SMTP result is only logged) and loops;
`n ≤ 0` just loops. -/
def checkCourseAvailability (email crn : String) :
    List WEvent → WatchOutcome
  | [] => ⟨0, [], [], .running⟩
  | .stopSignal :: _ =>
      ⟨0, [], ["Stopping course check for " ++ email], .terminated⟩
  | .tick (.fail msg) _ :: _ => ⟨1, [], [msg], .terminated⟩
  | .tick (.ok n) smtpOk :: rest =>
      let o := checkCourseAvailability email crn rest
      if 0 < n then
        ⟨o.checkerCalls + 1, (email, n, crn) :: o.sends,
          sendEmailNotification email n crn smtpOk ++ o.logs, o.status⟩
      else
        ⟨o.checkerCalls + 1, o.sends, o.logs, o.status⟩

/-! ## Seat parsing model (`parseAvailableSeats`) -/

/-- The literal part of the regex before the capture group:
`Enrollment Seats Available:</span> <span dir="ltr"> `. -/
def prefixPat : List Char :=
  "Enrollment Seats Available:</span> <span dir=\"ltr\"> ".toList

/-- The literal part of the regex after the capture group: ` </span>`. -/
def suffixPat : List Char := " </span>".toList

/-- Split off the maximal leading run of ASCII digits (the greedy `\d+`). -/
def splitDigits : List Char → List Char × List Char
  | [] => ([], [])
  | c :: cs =>
    if c.isDigit then
      let (ds, r) := splitDigits cs
      (c :: ds, r)
    else ([], c :: cs)

/-- Match `(-?\d+) </span>` at the start of `s`, returning the text the
group captures.  The digit run is greedy; since the suffix begins with a
non-digit, shrinking the run can never rescue a failed match, so greedy
matching with no backtracking is exact here. -/
def matchCapture (s : List Char) : Option (List Char) :=
  match s with
  | '-' :: rest =>
    let (ds, r) := splitDigits rest
    if ds ≠ [] ∧ suffixPat.isPrefixOf r then some ('-' :: ds) else none
  | _ =>
    let (ds, r) := splitDigits s
    if ds ≠ [] ∧ suffixPat.isPrefixOf r then some ds else none

/-- Match the whole regex at the start of `s`. -/
def matchAt (s : List Char) : Option (List Char) :=
  if prefixPat.isPrefixOf s then matchCapture (s.drop prefixPat.length)
  else none

/-- Model of `regexp.FindStringSubmatch`: the capture of the leftmost match, or
`none` when the pattern occurs nowhere in the string. -/
def findCapture : List Char → Option (List Char)
  | [] => none
  | c :: cs =>
    match matchAt (c :: cs) with
    | some cap => some cap
    | none => findCapture cs

/-- Numeric value of a digit string. -/
def digitsToNat (ds : List Char) : Nat :=
  ds.foldl (fun a c => a * 10 + (c.toNat - '0'.toNat)) 0

/-- Integer denoted by a captured `-?\d+` string. -/
def capToInt : List Char → Int
  | '-' :: ds => -(digitsToNat ds : Int)
  | ds => (digitsToNat ds : Int)

/-- Smallest Go `int` (64-bit platform). -/
def intMin : Int := -(2 ^ 63)

/-- Largest Go `int` (64-bit platform). -/
def intMax : Int := 2 ^ 63 - 1

/-- Model of `strconv.Atoi`, restricted to the `-?\d+` strings the capture group can
produce (on which no syntax error is possible): returns the denoted value,
or `ErrRange` when it falls outside the platform `int` range. -/
def strconvAtoi (cap : List Char) : Except String Int :=
  if capToInt cap < intMin ∨ intMax < capToInt cap then
    .error "value out of range"
  else .ok (capToInt cap)

/-- Function `parseAvailableSeats` (new_main.go:128-136): find the enrollment-seats
pattern; if it is absent answer the "could not find available seats in
HTML" error, otherwise return `strconv.Atoi` of the captured text. -/
def parseAvailableSeats (html : List Char) : Except String Int :=
  match findCapture html with
  | none => .error "could not find available seats in HTML"
  | some cap => strconvAtoi cap

/-! ## Lock-discipline model

The operations each handler performs between `subscriptionsMux.Lock()` and
`subscriptionsMux.Unlock()`, in program order, read off the source. -/

/-- The primitive operations that occur inside the handlers' critical
sections. -/
inductive LockAction
  | mapLookup
  | chanMake
  | mapInsert
  | chanSend
  | chanClose
  | mapDelete
deriving DecidableEq

/-- Critical section of `startCourseCheckHandler`, key absent (new_main.go:43-52): lookup,
`make(chan bool)`, insert.  (The goroutine spawn and the JSON reply happen
after `Unlock`.) -/
def startCriticalFresh : List LockAction :=
  [.mapLookup, .chanMake, .mapInsert]

/-- Critical section of `startCourseCheckHandler`, key present (new_main.go:43-47): lookup
only. -/
def startCriticalExisting : List LockAction := [.mapLookup]

/-- Critical section of `stopCourseCheckHandler`, key present (new_main.go:65-70): lookup,
`stopChan <- true`, `close(stopChan)`, `delete(subscriptions, email)` — all
before `Unlock`. -/
def stopCriticalFound : List LockAction :=
  [.mapLookup, .chanSend, .chanClose, .mapDelete]

/-- Critical section of `stopCourseCheckHandler`, key absent (new_main.go:65-74): lookup
only. -/
def stopCriticalAbsent : List LockAction := [.mapLookup]

/-- Whether a critical-section operation can block waiting on a Watcher.
`stopChan` is created by `make(chan bool)` — unbuffered — so a send on it
blocks until the watcher goroutine reaches its `select` and receives; every
other action is a lock-free map/channel-allocation step that cannot block. -/
def blocksOnWatcher : LockAction → Bool
  | .chanSend => true
  | _ => false

/-! ## Helper lemmas -/

/-- Looking an email up after filtering out every entry with that key
yields nothing. -/
theorem lookupSub_filter_self (subs : List (String × Nat)) (email : String) :
    lookupSub (subs.filter (fun p => decide (p.1 ≠ email))) email = none := by
  induction subs with
  | nil => rfl
  | cons p rest ih =>
    obtain ⟨k, v⟩ := p
    rw [List.filter_cons]
    by_cases h : k = email
    · simp only [h, ne_eq, not_true_eq_false, decide_False, Bool.false_eq_true, if_false]
      exact ih
    · simp only [ne_eq, h, not_false_eq_true, decide_True, if_true]
      rw [lookupSub, if_neg h]
      exact ih

/-- A successful lookup returns the value of an entry of the list. -/
theorem lookupSub_mem {subs : List (String × Nat)} {email : String} {ch : Nat}
    (h : lookupSub subs email = some ch) : (email, ch) ∈ subs := by
  induction subs with
  | nil => simp [lookupSub] at h
  | cons p rest ih =>
    obtain ⟨k, v⟩ := p
    rw [lookupSub] at h
    by_cases hk : k = email
    · rw [if_pos hk] at h
      have hv := Option.some.inj h
      subst hk
      subst hv
      exact List.mem_cons_self _ _
    · rw [if_neg hk] at h
      exact List.mem_cons_of_mem _ (ih h)

/-- Claim C5: on each tick the watcher notifies exactly once iff the checker
reports a positive count — `count > 0` prepends exactly one
`Send(key, count, target)` call before the remaining events are processed,
and `count ≤ 0` dispatches nothing and leaves the watch running. -/
theorem notify_iff_positive_count (email crn : String) (n : Int)
    (smtpOk : Bool) (rest : List WEvent) :
    (checkCourseAvailability email crn
        (WEvent.tick (.ok n) smtpOk :: rest)).checkerCalls
      = (checkCourseAvailability email crn rest).checkerCalls + 1 ∧
    (0 < n →
      (checkCourseAvailability email crn
          (WEvent.tick (.ok n) smtpOk :: rest)).sends
        = (email, n, crn) :: (checkCourseAvailability email crn rest).sends) ∧
    (n ≤ 0 →
      (checkCourseAvailability email crn
          (WEvent.tick (.ok n) smtpOk :: rest)).sends
        = (checkCourseAvailability email crn rest).sends ∧
      (checkCourseAvailability email crn
          (WEvent.tick (.ok n) smtpOk :: rest)).status
        = (checkCourseAvailability email crn rest).status) := by
  by_cases hn : 0 < n
  · refine ⟨by simp [checkCourseAvailability, hn], fun _ => ?_,
      fun hle => absurd hn (not_lt.mpr hle)⟩
    simp [checkCourseAvailability, hn]
  · exact ⟨by simp [checkCourseAvailability, hn], fun hlt => absurd hlt hn,
      fun _ => ⟨by simp [checkCourseAvailability, hn],
        by simp [checkCourseAvailability, hn]⟩⟩

/-- Claim C5 witness: a tick with count 5 produces exactly the one
notification, a tick with count 0 produces none. -/
theorem notify_iff_positive_count_witness :
    (checkCourseAvailability "a@x" "11111" [WEvent.tick (.ok 5) true]).sends
        = [("a@x", 5, "11111")] ∧
    (checkCourseAvailability "a@x" "11111" [WEvent.tick (.ok 0) true]).sends
        = [] := by
  constructor
  · have h := (notify_iff_positive_count "a@x" "11111" 5 true []).2.1
      (by decide)
    simpa [checkCourseAvailability] using h
  · have h := ((notify_iff_positive_count "a@x" "11111" 0 true []).2.2
      (by decide)).1
    simpa [checkCourseAvailability] using h

/-- Claim C6: a notifier failure is non-fatal — after a tick whose SMTP send
fails, the error is logged, the watch's status is whatever the remaining
events dictate (it stays running through this tick), and the next tick still
performs an availability check. -/
theorem notifier_failure_nonfatal (email crn : String) (n : Int)
    (hn : 0 < n) (c : CheckResult) (b : Bool) (rest : List WEvent) :
    checkCourseAvailability email crn
        (WEvent.tick (.ok n) false :: WEvent.tick c b :: rest)
      = { checkerCalls := (checkCourseAvailability email crn
            (WEvent.tick c b :: rest)).checkerCalls + 1
          sends := (email, n, crn) :: (checkCourseAvailability email crn
            (WEvent.tick c b :: rest)).sends
          logs := "Error sending email" :: (checkCourseAvailability email crn
            (WEvent.tick c b :: rest)).logs
          status := (checkCourseAvailability email crn
            (WEvent.tick c b :: rest)).status } ∧
    1 ≤ (checkCourseAvailability email crn
        (WEvent.tick c b :: rest)).checkerCalls := by
  constructor
  · simp [checkCourseAvailability, hn, sendEmailNotification]
  · cases c with
    | fail msg => simp [checkCourseAvailability]
    | ok m =>
      by_cases hm : 0 < m <;> simp [checkCourseAvailability, hm]

/-- Claim C6 witness: after a failed notification on a count-5 tick, the
following tick is still processed and the watch is still running. -/
theorem notifier_failure_nonfatal_witness :
    checkCourseAvailability "a@x" "11111"
        [WEvent.tick (.ok 5) false, WEvent.tick (.ok 0) true]
      = ⟨2, [("a@x", 5, "11111")], ["Error sending email"], .running⟩ := by
  have h := (notifier_failure_nonfatal "a@x" "11111" 5 (by decide)
    (.ok 0) true []).1
  simpa [checkCourseAvailability] using h

/-- Claim C7: cancellation terminates polling — events delivered after the
stop signal contribute nothing to the watcher's outcome (in particular no
further availability checks and no further notifications), and a run that
received the stop signal has terminated. -/
theorem cancellation_terminates_polling (email crn : String)
    (pre post : List WEvent) :
    checkCourseAvailability email crn (pre ++ WEvent.stopSignal :: post)
      = checkCourseAvailability email crn (pre ++ [WEvent.stopSignal]) ∧
    (checkCourseAvailability email crn
        (pre ++ WEvent.stopSignal :: post)).status = .terminated := by
  induction pre with
  | nil => exact ⟨rfl, rfl⟩
  | cons e pre ih =>
    cases e with
    | stopSignal => exact ⟨rfl, rfl⟩
    | tick c b =>
      cases c with
      | fail msg => exact ⟨rfl, rfl⟩
      | ok m =>
        constructor
        · by_cases hm : 0 < m <;> simp [checkCourseAvailability, hm, ih.1]
        · by_cases hm : 0 < m <;> simp [checkCourseAvailability, hm, ih.2]

/-- Claim C8 counterexample: in `stopCourseCheckHandler`'s critical section
the send on the stop channel comes first and the map entry is deleted only
afterwards — the registry entry is not removed before the handle is
signaled. -/
theorem stop_signals_before_removing_entry :
    LockAction.chanSend ∈ stopCriticalFound ∧
    LockAction.mapDelete ∈ stopCriticalFound ∧
    stopCriticalFound.indexOf LockAction.chanSend <
      stopCriticalFound.indexOf LockAction.mapDelete := by decide

/-- Claim C9 counterexample: `stopCourseCheckHandler` performs the send on
the unbuffered stop channel — an operation that blocks until the watcher
goroutine receives — while holding `subscriptionsMux`. -/
theorem stop_blocks_while_holding_lock :
    LockAction.chanSend ∈ stopCriticalFound ∧
    blocksOnWatcher LockAction.chanSend = true := by decide

/-- Claim C9 (amended): both `startCourseCheckHandler` paths and the
not-found path of `stopCourseCheckHandler` hold the lock only for
non-blocking map/channel-creation operations (the network call and the mail
send happen in the watcher goroutine, outside any lock), but the found path
of `stopCourseCheckHandler` performs exactly one operation that can block on
a watcher — the unbuffered channel send — while holding the lock. -/
theorem lock_discipline :
    startCriticalFresh.filter blocksOnWatcher = [] ∧
    startCriticalExisting.filter blocksOnWatcher = [] ∧
    stopCriticalAbsent.filter blocksOnWatcher = [] ∧
    stopCriticalFound.filter blocksOnWatcher = [LockAction.chanSend] := by
  decide

/-- Claim C1: at most one watch per key — from a state where `email` has no
entry and no live watcher, the first `Start` answers `started`; a second
`Start` for the same key (any target) answers `alreadyActive`, leaves the
whole state unchanged, and exactly one watcher goroutine exists for the
key. -/
theorem at_most_one_watch_per_key (s : RegState) (email crn1 crn2 : String)
    (he : email ≠ "") (hc1 : crn1 ≠ "") (hc2 : crn2 ≠ "")
    (habs : lookupSub s.subs email = none)
    (hw : watcherCount s email = 0) :
    (startCourseCheckHandler email crn1 s).1 = .started ∧
    (startCourseCheckHandler email crn2
        (startCourseCheckHandler email crn1 s).2).1 = .alreadyActive ∧
    (startCourseCheckHandler email crn2
        (startCourseCheckHandler email crn1 s).2).2
      = (startCourseCheckHandler email crn1 s).2 ∧
    watcherCount (startCourseCheckHandler email crn1 s).2 email = 1 := by
  have hne1 : ¬(email = "" ∨ crn1 = "") := by simp [he, hc1]
  have hne2 : ¬(email = "" ∨ crn2 = "") := by simp [he, hc2]
  have hs1 : startCourseCheckHandler email crn1 s =
      (.started,
        { subs := (email, s.nextChan) :: s.subs
          nextChan := s.nextChan + 1
          watchers := (email, crn1, s.nextChan) :: s.watchers
          signals := s.signals }) := by
    rw [startCourseCheckHandler, if_neg hne1, habs]
  have hlk : lookupSub ((email, s.nextChan) :: s.subs) email
      = some s.nextChan := by
    rw [lookupSub, if_pos rfl]
  refine ⟨by rw [hs1], ?_, ?_, ?_⟩
  · rw [hs1, startCourseCheckHandler, if_neg hne2]
    simp [hlk]
  · rw [hs1, startCourseCheckHandler, if_neg hne2]
    simp [hlk]
  · rw [hs1]
    rw [watcherCount] at hw ⊢
    simp [List.filter_cons, hw]

/-- Claim C1 witness: concrete double start on the initial state. -/
theorem at_most_one_watch_per_key_witness :
    ("a@x.y" : String) ≠ "" ∧ ("11111" : String) ≠ "" ∧
    ("22222" : String) ≠ "" ∧
    lookupSub initState.subs "a@x.y" = none ∧
    watcherCount initState "a@x.y" = 0 ∧
    ((startCourseCheckHandler "a@x.y" "11111" initState).1 = .started ∧
     (startCourseCheckHandler "a@x.y" "22222"
        (startCourseCheckHandler "a@x.y" "11111" initState).2).1
       = .alreadyActive ∧
     (startCourseCheckHandler "a@x.y" "22222"
        (startCourseCheckHandler "a@x.y" "11111" initState).2).2
       = (startCourseCheckHandler "a@x.y" "11111" initState).2 ∧
     watcherCount (startCourseCheckHandler "a@x.y" "11111" initState).2
        "a@x.y" = 1) :=
  ⟨by decide, by decide, by decide, by decide, by decide,
    at_most_one_watch_per_key initState "a@x.y" "11111" "22222"
      (by decide) (by decide) (by decide) (by decide) (by decide)⟩

/-- Claim C3: start-stop round trip — `Start` answers `started`, the first
`Stop` answers `stopped`, an immediate second `Stop` answers `notFound`
leaving the state unchanged, and a fresh `Start` for the same key then
answers `started` again. -/
theorem start_stop_round_trip (s : RegState) (email crn crn' : String)
    (he : email ≠ "") (hc : crn ≠ "") (hc' : crn' ≠ "")
    (habs : lookupSub s.subs email = none) :
    (startCourseCheckHandler email crn s).1 = .started ∧
    (stopCourseCheckHandler email
        (startCourseCheckHandler email crn s).2).1 = .stopped ∧
    (stopCourseCheckHandler email
        (stopCourseCheckHandler email
          (startCourseCheckHandler email crn s).2).2).1 = .notFound ∧
    (stopCourseCheckHandler email
        (stopCourseCheckHandler email
          (startCourseCheckHandler email crn s).2).2).2
      = (stopCourseCheckHandler email
          (startCourseCheckHandler email crn s).2).2 ∧
    (startCourseCheckHandler email crn'
        (stopCourseCheckHandler email
          (startCourseCheckHandler email crn s).2).2).1 = .started := by
  have hne : ¬(email = "" ∨ crn = "") := by simp [he, hc]
  have hne' : ¬(email = "" ∨ crn' = "") := by simp [he, hc']
  have hs1 : startCourseCheckHandler email crn s =
      (.started,
        { subs := (email, s.nextChan) :: s.subs
          nextChan := s.nextChan + 1
          watchers := (email, crn, s.nextChan) :: s.watchers
          signals := s.signals }) := by
    rw [startCourseCheckHandler, if_neg hne, habs]
  have hlk : lookupSub ((email, s.nextChan) :: s.subs) email
      = some s.nextChan := by
    rw [lookupSub, if_pos rfl]
  have hs2 : stopCourseCheckHandler email
      (startCourseCheckHandler email crn s).2 =
      (.stopped,
        { subs := ((email, s.nextChan) :: s.subs).filter
            (fun p => decide (p.1 ≠ email))
          nextChan := s.nextChan + 1
          watchers := ((email, crn, s.nextChan) :: s.watchers).filter
            (fun w => decide (w.2.2 ≠ s.nextChan))
          signals := s.nextChan :: s.signals }) := by
    rw [hs1, stopCourseCheckHandler, if_neg he]
    simp [hlk]
  have habs2 : lookupSub (((email, s.nextChan) :: s.subs).filter
      (fun p => decide (p.1 ≠ email))) email = none :=
    lookupSub_filter_self _ email
  refine ⟨by rw [hs1], by rw [hs2], ?_, ?_, ?_⟩
  · rw [hs2, stopCourseCheckHandler, if_neg he, habs2]
  · rw [hs2, stopCourseCheckHandler, if_neg he, habs2]
  · rw [hs2, startCourseCheckHandler, if_neg hne', habs2]

/-- Claim C3 witness: concrete start/stop/stop/start sequence on the
initial state. -/
theorem start_stop_round_trip_witness :
    ("a@x.y" : String) ≠ "" ∧ ("11111" : String) ≠ "" ∧
    ("22222" : String) ≠ "" ∧
    lookupSub initState.subs "a@x.y" = none ∧
    ((startCourseCheckHandler "a@x.y" "11111" initState).1 = .started ∧
     (stopCourseCheckHandler "a@x.y"
        (startCourseCheckHandler "a@x.y" "11111" initState).2).1
       = .stopped ∧
     (stopCourseCheckHandler "a@x.y"
        (stopCourseCheckHandler "a@x.y"
          (startCourseCheckHandler "a@x.y" "11111" initState).2).2).1
       = .notFound ∧
     (stopCourseCheckHandler "a@x.y"
        (stopCourseCheckHandler "a@x.y"
          (startCourseCheckHandler "a@x.y" "11111" initState).2).2).2
       = (stopCourseCheckHandler "a@x.y"
          (startCourseCheckHandler "a@x.y" "11111" initState).2).2 ∧
     (startCourseCheckHandler "a@x.y" "22222"
        (stopCourseCheckHandler "a@x.y"
          (startCourseCheckHandler "a@x.y" "11111" initState).2).2).1
       = .started) :=
  ⟨by decide, by decide, by decide, by decide,
    start_stop_round_trip initState "a@x.y" "11111" "22222"
      (by decide) (by decide) (by decide) (by decide)⟩

/-- Claim C4: stopping a key with no active subscription answers `notFound`
and leaves the state untouched. -/
theorem stop_unknown_notFound (s : RegState) (email : String)
    (he : email ≠ "") (habs : lookupSub s.subs email = none) :
    stopCourseCheckHandler email s = (.notFound, s) := by
  rw [stopCourseCheckHandler, if_neg he, habs]

/-- Claim C4 witness: stopping a never-started key on the initial state. -/
theorem stop_unknown_notFound_witness :
    ("nobody@x.y" : String) ≠ "" ∧
    lookupSub initState.subs "nobody@x.y" = none ∧
    stopCourseCheckHandler "nobody@x.y" initState
      = (.notFound, initState) :=
  ⟨by decide, by decide,
    stop_unknown_notFound initState "nobody@x.y" (by decide) (by decide)⟩

/-- Claim C2 (code bug, acknowledged by the spec's §9 self-deregistration
gap): when the availability check fails the watcher goroutine returns —
terminating itself — but deletes nothing from `subscriptions`, so the key
stays registered: a fresh `Start` for it answers `alreadyActive` instead of
the `started` the claim requires, and `Stop` still finds the (now stale)
entry instead of answering `notFound`. -/
theorem checker_failure_leaves_zombie_entry :
    (startCourseCheckHandler "a@x.y" "11111" initState).1 = .started ∧
    (checkCourseAvailability "a@x.y" "11111"
        [WEvent.tick (.fail "Error making request: ") true]).status
      = .terminated ∧
    watcherCount (watcherSelfTerminate 0
        (startCourseCheckHandler "a@x.y" "11111" initState).2) "a@x.y"
      = 0 ∧
    lookupSub (watcherSelfTerminate 0
        (startCourseCheckHandler "a@x.y" "11111" initState).2).subs "a@x.y"
      = some 0 ∧
    (startCourseCheckHandler "a@x.y" "22222"
        (watcherSelfTerminate 0
          (startCourseCheckHandler "a@x.y" "11111" initState).2)).1
      = .alreadyActive := by decide

/-- Channel-accounting invariant of the registry state: every channel in
the map or already signaled was created (is below `nextChan`), distinct map
entries hold distinct channels, no channel has been signaled twice, and no
channel still in the map has already been signaled. -/
def ChanInv (s : RegState) : Prop :=
  (∀ p ∈ s.subs, p.2 < s.nextChan) ∧
  (∀ c ∈ s.signals, c < s.nextChan) ∧
  (s.subs.map Prod.snd).Nodup ∧
  s.signals.Nodup ∧
  (∀ p ∈ s.subs, p.2 ∉ s.signals)

/-- The initial state satisfies the channel-accounting invariant. -/
theorem chanInv_initState : ChanInv initState := by
  refine ⟨?_, ?_, ?_, ?_, ?_⟩ <;> simp [initState]

/-- Operation `startCourseCheckHandler` preserves the invariant: it either changes
nothing or inserts a fresh, never-signaled channel. -/
theorem chanInv_start {s : RegState} (h : ChanInv s) (email crn : String) :
    ChanInv (startCourseCheckHandler email crn s).2 := by
  obtain ⟨h1, h2, h3, h4, h5⟩ := h
  rw [startCourseCheckHandler]
  by_cases he : email = "" ∨ crn = ""
  · rw [if_pos he]
    exact ⟨h1, h2, h3, h4, h5⟩
  · rw [if_neg he]
    cases hl : lookupSub s.subs email with
    | some ch => exact ⟨h1, h2, h3, h4, h5⟩
    | none =>
      refine ⟨?_, ?_, ?_, h4, ?_⟩
      · intro p hp
        rcases List.mem_cons.mp hp with rfl | hp'
        · exact Nat.lt_succ_self _
        · exact Nat.lt_succ_of_lt (h1 p hp')
      · intro c hc
        exact Nat.lt_succ_of_lt (h2 c hc)
      · rw [List.map_cons]
        refine List.Nodup.cons ?_ h3
        intro hmem
        rcases List.mem_map.mp hmem with ⟨p, hp, hpe⟩
        exact absurd (hpe ▸ h1 p hp) (lt_irrefl _)
      · intro p hp
        rcases List.mem_cons.mp hp with rfl | hp'
        · intro hmem
          exact absurd (h2 _ hmem) (lt_irrefl _)
        · exact h5 p hp'

/-- Operation `stopCourseCheckHandler` preserves the invariant: it either changes
nothing, or removes the key's entry and signals its channel — a channel
that (by the invariant) was never signaled before, so the signal record
stays duplicate-free. -/
theorem chanInv_stop {s : RegState} (h : ChanInv s) (email : String) :
    ChanInv (stopCourseCheckHandler email s).2 := by
  obtain ⟨h1, h2, h3, h4, h5⟩ := h
  rw [stopCourseCheckHandler]
  by_cases he : email = ""
  · rw [if_pos he]
    exact ⟨h1, h2, h3, h4, h5⟩
  · rw [if_neg he]
    cases hl : lookupSub s.subs email with
    | none => exact ⟨h1, h2, h3, h4, h5⟩
    | some ch =>
      have hmem : (email, ch) ∈ s.subs := lookupSub_mem hl
      refine ⟨?_, ?_, ?_, ?_, ?_⟩
      · intro p hp
        exact h1 p (List.mem_of_mem_filter hp)
      · intro c hc
        rcases List.mem_cons.mp hc with rfl | hc'
        · exact h1 _ hmem
        · exact h2 c hc'
      · exact List.Nodup.sublist
          (List.Sublist.map Prod.snd (List.filter_sublist s.subs)) h3
      · exact List.Nodup.cons (h5 _ hmem) h4
      · intro p hp hsig
        have hpS : p ∈ s.subs := List.mem_of_mem_filter hp
        have hpne : p.1 ≠ email := by
          have := List.of_mem_filter hp
          simpa using this
        rcases List.mem_cons.mp hsig with hch | hsig'
        · have : p = (email, ch) :=
            List.inj_on_of_nodup_map h3 hpS hmem hch
          exact hpne (by rw [this])
        · exact h5 p hpS hsig'

/-- A watcher's self-termination touches neither the map nor the signal
record, so it preserves the invariant. -/
theorem chanInv_watcherFail {s : RegState} (h : ChanInv s) (ch : Nat) :
    ChanInv (watcherSelfTerminate ch s) := h

/-- Every single event preserves the channel-accounting invariant. -/
theorem chanInv_applyOp {s : RegState} (h : ChanInv s) (op : Op) :
    ChanInv (applyOp s op) := by
  cases op with
  | start email crn => exact chanInv_start h email crn
  | stop email => exact chanInv_stop h email
  | watcherFail ch => exact chanInv_watcherFail h ch

/-- Every event sequence preserves the channel-accounting invariant. -/
theorem chanInv_applyOps (ops : List Op) {s : RegState} (h : ChanInv s) :
    ChanInv (applyOps s ops) := by
  induction ops generalizing s with
  | nil => exact h
  | cons op ops ih => exact ih (chanInv_applyOp h op)

/-- Claim C8 (amended): over any sequence of start/stop/self-termination
events from the initial state, every cancellation channel is signaled at
most once — the entry is removed in the same critical section as the
signal (after the send in program order, not before it), so no later
`Stop` can ever observe the channel again. -/
theorem handle_signaled_at_most_once (ops : List Op) :
    (applyOps initState ops).signals.Nodup :=
  (chanInv_applyOps ops chanInv_initState).2.2.2.1

/-- HTML in which the enrollment-seats pattern is present but the captured
number, 2^63, exceeds the 64-bit `int` range. -/
def overflowHtml : List Char :=
  prefixPat ++ "9223372036854775808 </span>".toList

/-- HTML in which the pattern is present with the negative count -3. -/
def negSeatsHtml : List Char := prefixPat ++ "-3 </span>".toList

/-- Claim C10 counterexample: the pattern is present in `overflowHtml`, yet
`parseAvailableSeats` returns an error — `strconv.Atoi` rejects the
captured number as out of range — so "error iff the pattern is absent"
fails. -/
theorem parse_error_despite_pattern_present :
    findCapture overflowHtml = some "9223372036854775808".toList ∧
    parseAvailableSeats overflowHtml = .error "value out of range" :=
  ⟨by decide, rfl⟩

/-- Claim C10 (amended): `parseAvailableSeats` succeeds iff the
enrollment-seats pattern is present and the captured integer fits in the
64-bit `int` range; in that case it returns exactly the captured
integer — which may be negative, a negative count being a valid parse that
yields no notification on the tick. -/
theorem parseAvailableSeats_ok_iff (html : List Char) :
    ((∃ n, parseAvailableSeats html = .ok n) ↔
      (∃ cap, findCapture html = some cap ∧
        intMin ≤ capToInt cap ∧ capToInt cap ≤ intMax)) ∧
    (∀ cap, findCapture html = some cap → intMin ≤ capToInt cap →
      capToInt cap ≤ intMax →
      parseAvailableSeats html = .ok (capToInt cap)) ∧
    (∀ email crn : String, ∀ n : Int, n ≤ 0 → ∀ smtpOk : Bool,
      (checkCourseAvailability email crn
        [WEvent.tick (.ok n) smtpOk]).sends = []) := by
  have hcore : ∀ cap, findCapture html = some cap → intMin ≤ capToInt cap →
      capToInt cap ≤ intMax →
      parseAvailableSeats html = .ok (capToInt cap) := by
    intro cap hf hlo hhi
    simp only [parseAvailableSeats, hf]
    unfold strconvAtoi
    rw [if_neg ?_]
    rintro (h | h)
    · exact absurd hlo (not_le.mpr h)
    · exact absurd hhi (not_le.mpr h)
  refine ⟨?_, hcore, ?_⟩
  · constructor
    · rintro ⟨n, hn⟩
      cases hf : findCapture html with
      | none => simp [parseAvailableSeats, hf] at hn
      | some cap =>
        simp only [parseAvailableSeats, hf] at hn
        unfold strconvAtoi at hn
        by_cases hr : capToInt cap < intMin ∨ intMax < capToInt cap
        · rw [if_pos hr] at hn
          exact absurd hn (by simp)
        · push_neg at hr
          exact ⟨cap, rfl, hr.1, hr.2⟩
    · rintro ⟨cap, hf, hlo, hhi⟩
      exact ⟨capToInt cap, hcore cap hf hlo hhi⟩
  · intro email crn n hn smtpOk
    simp [checkCourseAvailability, not_lt.mpr hn]

/-- Claim C10 amended witness: `-3` is parsed as a valid (negative) count
from `negSeatsHtml`, and a tick reporting `-3` dispatches no
notification. -/
theorem parseAvailableSeats_ok_iff_witness :
    parseAvailableSeats negSeatsHtml = .ok (-3) ∧
    (checkCourseAvailability "a@x.y" "11111"
        [WEvent.tick (.ok (-3)) true]).sends = [] := by
  constructor
  · have h := (parseAvailableSeats_ok_iff negSeatsHtml).2.1 "-3".toList
      (by decide) (by decide) (by decide)
    have hv : capToInt "-3".toList = -3 := by decide
    rw [h, hv]
  · exact (parseAvailableSeats_ok_iff negSeatsHtml).2.2 "a@x.y" "11111"
      (-3) (by decide) true
